import Mathlib

/-!
Verification of the anchor-based compatibility and placement engine of the
fit-pc repository against its natural-language specification.

The development shallowly embeds:
* the Anchor Store (`store/useAnchorStore.ts`): the anchor catalog
  `ANCHOR_TYPE_INFO`, the `Anchor` record and the store operations
  (`addAnchor`, `duplicateAnchor`, `updateAnchor`, `selectAnchor`,
  `removeAnchor`, `setAnchors`, `clearAnchors`);
* the admin product form (`components/admin/ProductForm.tsx`): serialization
  of editor anchors to the persisted `anchor_points` representation and the
  parse of that representation back into editor anchors;
* the UI compatibility resolver (`components/builder/ComponentSelector.tsx`,
  `checkCompatibility`) and the backend socket filter
  (`handlers/…`, `FilterBySocketCompatibility`);
* the placement composer (`components/builder/BuilderCanvas.tsx`,
  `Scene/componentTransforms` and `getRamTransforms`).

Modelling conventions: JavaScript numbers are modelled as exact rationals
where the code performs only field-free arithmetic (store, serialization,
compatibility) and as real numbers where the composer applies trigonometric
Euler rotations (`THREE.Vector3.applyEuler`); `uuidv4()` and `Date.now()`
are modelled as explicit parameters supplied by the environment; JavaScript
object-key lookup is modelled with `Option`, and JavaScript truthiness of
the looked-up values is modelled explicitly.
-/

namespace FitPC

/-- A 3-component vector, used both for positions and for Euler rotations.
`α` is `ℚ` in the editor/compatibility embedding and `ℝ` in the composer. -/
structure Vec3 (α : Type) where
  x : α
  y : α
  z : α
deriving DecidableEq, Repr

instance [Add α] : Add (Vec3 α) where
  add a b := ⟨a.x + b.x, a.y + b.y, a.z + b.z⟩

instance [Sub α] : Sub (Vec3 α) where
  sub a b := ⟨a.x - b.x, a.y - b.y, a.z - b.z⟩

@[simp] theorem Vec3.add_mk [Add α] (a b c d e f : α) :
    (⟨a, b, c⟩ + ⟨d, e, f⟩ : Vec3 α) = ⟨a + d, b + e, c + f⟩ := rfl

@[simp] theorem Vec3.sub_mk [Sub α] (a b c d e f : α) :
    (⟨a, b, c⟩ - ⟨d, e, f⟩ : Vec3 α) = ⟨a - d, b - e, c - f⟩ := rfl

/-! ## Anchor Type Catalog (store/useAnchorStore.ts)

The TypeScript `AnchorType` is a closed union of string literals; we embed it
as an inductive type together with its runtime string name. -/

inductive AnchorType
  | cpu_socket | ram_slot | pcie_x16 | pcie_x4 | pcie_x1 | m2_slot | sata_port
  | cooler_plate | mobo_mount_area | psu_bay | fan_mount_120 | fan_mount_140
  | drive_bay_25 | drive_bay_35
  | cpu_bottom | cooler_base | ram_edge | pcie_edge | m2_edge | sata_plug
  | mobo_backplate | psu_mount | fan_mount | drive_mount
deriving DecidableEq, Repr

/-- The runtime string of an `AnchorType` literal. -/
def anchorTypeName : AnchorType → String
  | .cpu_socket => "cpu_socket"
  | .ram_slot => "ram_slot"
  | .pcie_x16 => "pcie_x16"
  | .pcie_x4 => "pcie_x4"
  | .pcie_x1 => "pcie_x1"
  | .m2_slot => "m2_slot"
  | .sata_port => "sata_port"
  | .cooler_plate => "cooler_plate"
  | .mobo_mount_area => "mobo_mount_area"
  | .psu_bay => "psu_bay"
  | .fan_mount_120 => "fan_mount_120"
  | .fan_mount_140 => "fan_mount_140"
  | .drive_bay_25 => "drive_bay_25"
  | .drive_bay_35 => "drive_bay_35"
  | .cpu_bottom => "cpu_bottom"
  | .cooler_base => "cooler_base"
  | .ram_edge => "ram_edge"
  | .pcie_edge => "pcie_edge"
  | .m2_edge => "m2_edge"
  | .sata_plug => "sata_plug"
  | .mobo_backplate => "mobo_backplate"
  | .psu_mount => "psu_mount"
  | .fan_mount => "fan_mount"
  | .drive_mount => "drive_mount"

/-- Partial inverse of `anchorTypeName`, used to model the
`ap.name as AnchorType` cast when parsing persisted anchors. -/
def anchorTypeOfName? : String → Option AnchorType
  | "cpu_socket" => some .cpu_socket
  | "ram_slot" => some .ram_slot
  | "pcie_x16" => some .pcie_x16
  | "pcie_x4" => some .pcie_x4
  | "pcie_x1" => some .pcie_x1
  | "m2_slot" => some .m2_slot
  | "sata_port" => some .sata_port
  | "cooler_plate" => some .cooler_plate
  | "mobo_mount_area" => some .mobo_mount_area
  | "psu_bay" => some .psu_bay
  | "fan_mount_120" => some .fan_mount_120
  | "fan_mount_140" => some .fan_mount_140
  | "drive_bay_25" => some .drive_bay_25
  | "drive_bay_35" => some .drive_bay_35
  | "cpu_bottom" => some .cpu_bottom
  | "cooler_base" => some .cooler_base
  | "ram_edge" => some .ram_edge
  | "pcie_edge" => some .pcie_edge
  | "m2_edge" => some .m2_edge
  | "sata_plug" => some .sata_plug
  | "mobo_backplate" => some .mobo_backplate
  | "psu_mount" => some .psu_mount
  | "fan_mount" => some .fan_mount
  | "drive_mount" => some .drive_mount
  | _ => none

theorem anchorTypeOfName_name (t : AnchorType) :
    anchorTypeOfName? (anchorTypeName t) = some t := by
  cases t <;> rfl

/-- Catalog descriptor of an anchor type (`ANCHOR_TYPE_INFO` entry).
`direction`, `defaultAxis`, `category` and the compatible types are kept as
their runtime strings. -/
structure AnchorTypeInfo where
  label : String
  direction : String
  defaultAxis : String
  defaultCompatible : List String
  category : String
deriving DecidableEq, Repr

/-- The `ANCHOR_TYPE_INFO` catalog table. -/
def ANCHOR_TYPE_INFO : AnchorType → AnchorTypeInfo
  | .cpu_socket => ⟨"CPU Socket", "output", "Y_NEG", ["cpu_bottom"], "motherboard"⟩
  | .ram_slot => ⟨"RAM Slot", "output", "Y_NEG", ["ram_edge"], "motherboard"⟩
  | .pcie_x16 => ⟨"PCIe x16 Slot", "output", "Z_NEG", ["pcie_edge"], "motherboard"⟩
  | .pcie_x4 => ⟨"PCIe x4 Slot", "output", "Z_NEG", ["pcie_edge"], "motherboard"⟩
  | .pcie_x1 => ⟨"PCIe x1 Slot", "output", "Z_NEG", ["pcie_edge"], "motherboard"⟩
  | .m2_slot => ⟨"M.2 Slot", "output", "Z_NEG", ["m2_edge"], "motherboard"⟩
  | .sata_port => ⟨"SATA Port", "output", "Z_NEG", ["sata_plug"], "motherboard"⟩
  | .cooler_plate => ⟨"Cooler Plate", "output", "Y_POS", ["cooler_base"], "cpu"⟩
  | .mobo_mount_area => ⟨"Motherboard Mount Area", "output", "Y_POS", ["mobo_backplate"], "case"⟩
  | .psu_bay => ⟨"PSU Bay", "output", "Z_NEG", ["psu_mount"], "case"⟩
  | .fan_mount_120 => ⟨"Fan Mount 120mm", "output", "Z_NEG", ["fan_mount"], "case"⟩
  | .fan_mount_140 => ⟨"Fan Mount 140mm", "output", "Z_NEG", ["fan_mount"], "case"⟩
  | .drive_bay_25 => ⟨"2.5\" Drive Bay", "output", "Z_NEG", ["drive_mount"], "case"⟩
  | .drive_bay_35 => ⟨"3.5\" Drive Bay", "output", "Z_NEG", ["drive_mount"], "case"⟩
  | .cpu_bottom => ⟨"CPU Contact", "input", "Y_NEG", ["cpu_socket"], "component"⟩
  | .cooler_base => ⟨"Cooler Base", "input", "Y_POS", ["cooler_plate"], "component"⟩
  | .ram_edge => ⟨"RAM Edge", "input", "Y_NEG", ["ram_slot"], "component"⟩
  | .pcie_edge => ⟨"PCIe Edge", "input", "Z_NEG", ["pcie_x16", "pcie_x4", "pcie_x1"], "component"⟩
  | .m2_edge => ⟨"M.2 Edge", "input", "Z_NEG", ["m2_slot"], "component"⟩
  | .sata_plug => ⟨"SATA Plug", "input", "Z_NEG", ["sata_port"], "component"⟩
  | .mobo_backplate => ⟨"Motherboard Backplate", "input", "Y_NEG", ["mobo_mount_area"], "component"⟩
  | .psu_mount => ⟨"PSU Mount", "input", "Z_NEG", ["psu_bay"], "component"⟩
  | .fan_mount => ⟨"Fan Mount", "input", "Z_NEG", ["fan_mount_120", "fan_mount_140"], "component"⟩
  | .drive_mount => ⟨"Drive Mount", "input", "Z_NEG", ["drive_bay_25", "drive_bay_35"], "component"⟩

/-! ## Anchor Store (store/useAnchorStore.ts) -/

/-- An editor anchor instance.  Positions and rotations are rationals (the
store performs only exact arithmetic on them).  `direction` and
`connectionAxis` are runtime strings of the corresponding string-literal
unions. -/
structure Anchor where
  id : String
  type : AnchorType
  label : String
  position : Vec3 ℚ
  rotation : Vec3 ℚ
  direction : String
  connectionAxis : String
  compatibleWith : List String
deriving DecidableEq, Repr

/-- The zustand store state: the anchor list and the current selection. -/
structure AnchorState where
  anchors : List Anchor
  selectedAnchorId : Option String
deriving DecidableEq, Repr

/-- The helper `getDefaultLabel`: catalog label of the type followed by
(count of existing anchors of the same type) + 1. -/
def getDefaultLabel (type : AnchorType) (existingAnchors : List Anchor) : String :=
  let info := ANCHOR_TYPE_INFO type
  let sameTypeCount := (existingAnchors.filter (fun a => a.type = type)).length + 1
  info.label ++ " " ++ toString sameTypeCount

/-- Operation `addAnchor(type, label?)`.  `uuidv4()` is modelled by the explicit
`newId` parameter.  The JavaScript `label || getDefaultLabel(…)` falls back
to the default when `label` is omitted or the empty string. -/
def addAnchor (newId : String) (type : AnchorType) (label : Option String)
    (s : AnchorState) : AnchorState :=
  let info := ANCHOR_TYPE_INFO type
  let actualLabel :=
    match label with
    | some l => if l = "" then getDefaultLabel type s.anchors else l
    | none => getDefaultLabel type s.anchors
  { anchors := s.anchors ++
      [{ id := newId, type := type, label := actualLabel,
         position := ⟨0, 0, 0⟩, rotation := ⟨0, 0, 0⟩,
         direction := info.direction, connectionAxis := info.defaultAxis,
         compatibleWith := info.defaultCompatible }],
    selectedAnchorId := none }

/-- Operation `duplicateAnchor(id)`.  `uuidv4()` is modelled by the explicit `newId`
parameter.  No-op when `id` is not found; otherwise appends the clone with a
recomputed label and a `+1` offset on the x axis, and selects the clone. -/
def duplicateAnchor (newId : String) (id : String) (s : AnchorState) : AnchorState :=
  match s.anchors.find? (fun a => a.id = id) with
  | none => s
  | some anchor =>
    let newAnchor : Anchor :=
      { anchor with
        id := newId,
        label := getDefaultLabel anchor.type s.anchors,
        position := ⟨anchor.position.x + 1, anchor.position.y, anchor.position.z⟩ }
    { anchors := s.anchors ++ [newAnchor], selectedAnchorId := some newId }

/-- The subset of fields `updateAnchor` may merge
(`Partial<Pick<Anchor, 'position' | 'rotation' | 'direction' | 'label' |
'connectionAxis' | 'compatibleWith'>>`). -/
structure AnchorUpdates where
  position : Option (Vec3 ℚ) := none
  rotation : Option (Vec3 ℚ) := none
  direction : Option String := none
  label : Option String := none
  connectionAxis : Option String := none
  compatibleWith : Option (List String) := none
deriving DecidableEq, Repr

/-- The object-spread merge `{ ...anchor, ...updates }`. -/
def mergeAnchor (a : Anchor) (u : AnchorUpdates) : Anchor :=
  { a with
    position := u.position.getD a.position,
    rotation := u.rotation.getD a.rotation,
    direction := u.direction.getD a.direction,
    label := u.label.getD a.label,
    connectionAxis := u.connectionAxis.getD a.connectionAxis,
    compatibleWith := u.compatibleWith.getD a.compatibleWith }

/-- Operation `updateAnchor(id, updates)`. -/
def updateAnchor (id : String) (updates : AnchorUpdates) (s : AnchorState) : AnchorState :=
  { s with anchors := s.anchors.map (fun anchor =>
      if anchor.id = id then mergeAnchor anchor updates else anchor) }

/-- Operation `selectAnchor(id | null)`. -/
def selectAnchor (id : Option String) (s : AnchorState) : AnchorState :=
  { s with selectedAnchorId := id }

/-- Operation `removeAnchor(id)`. -/
def removeAnchor (id : String) (s : AnchorState) : AnchorState :=
  { anchors := s.anchors.filter (fun a => ¬ a.id = id),
    selectedAnchorId := if s.selectedAnchorId = some id then none else s.selectedAnchorId }

/-- Operation `setAnchors(list)`. -/
def setAnchors (anchors : List Anchor) (_s : AnchorState) : AnchorState :=
  { anchors := anchors, selectedAnchorId := none }

/-- Operation `clearAnchors()`. -/
def clearAnchors (_s : AnchorState) : AnchorState :=
  { anchors := [], selectedAnchorId := none }

/-! ## Persisted anchor representation (components/admin/ProductForm.tsx,
backend `models.AnchorPoint`) -/

/-- The persisted anchor representation exchanged with the backend
(`BackendAnchorPoint` in ProductForm.tsx, `models.AnchorPoint` in Go). -/
structure BackendAnchorPoint where
  name : String
  label : String
  position : Vec3 ℚ
  rotation : Vec3 ℚ
  direction : String
  connection_axis : String
  compatible_types : List String
deriving DecidableEq, Repr

/-- Serialization of one editor anchor at save time
(`anchor_points: anchors.map(a => ({ name: a.type, … }))`).
`a.compatibleWith || []` keeps the array as-is (arrays are truthy). -/
def serializeAnchor (a : Anchor) : BackendAnchorPoint :=
  { name := anchorTypeName a.type,
    label := a.label,
    position := a.position,
    rotation := a.rotation,
    direction := a.direction,
    connection_axis := a.connectionAxis,
    compatible_types := a.compatibleWith }

/-- Parse of one persisted anchor when the product form is initialized
(`initialData.anchor_points.map((ap, index) => …)`).  `Date.now()` is
modelled by the explicit `now` parameter; the `ap.name as AnchorType` cast is
modelled by `anchorTypeOfName?` (returning `none` for a string outside the
closed union, which the TypeScript types rule out).  The `||` fallbacks fire
on the empty string, the falsy value the non-optional string fields admit. -/
def parseAnchorPoint (now : Nat) (index : Nat) (ap : BackendAnchorPoint) : Option Anchor :=
  (anchorTypeOfName? ap.name).map (fun type =>
    { id := "anchor-" ++ toString index ++ "-" ++ toString now,
      type := type,
      label := if ap.label = "" then "Anchor " ++ toString (index + 1) else ap.label,
      position := ap.position,
      rotation := ap.rotation,
      direction := if ap.direction = "" then "output" else ap.direction,
      connectionAxis := if ap.connection_axis = "" then "Y_NEG" else ap.connection_axis,
      compatibleWith := ap.compatible_types })

/-- Parse of a persisted anchor list (the `useState` initializer in
ProductForm.tsx; an empty or missing list yields `[]`). -/
def parseAnchorPoints (now : Nat) (aps : List BackendAnchorPoint) : Option (List Anchor) :=
  aps.enum.mapM (fun p => parseAnchorPoint now p.1 p.2)

/-- Equality of editor anchors on every persisted field (the fresh `id` is
not part of the persisted representation). -/
def anchorContentEq (a b : Anchor) : Prop :=
  a.type = b.type ∧ a.label = b.label ∧ a.position = b.position ∧
  a.rotation = b.rotation ∧ a.direction = b.direction ∧
  a.connectionAxis = b.connectionAxis ∧ a.compatibleWith = b.compatibleWith

instance (a b : Anchor) : Decidable (anchorContentEq a b) := by
  unfold anchorContentEq; infer_instance

/-! ## Compatibility resolver

Stage B: `checkCompatibility` in `components/builder/ComponentSelector.tsx`.
Stage A: `FilterBySocketCompatibility` in the backend product handlers. -/

/-- A value of the open `technical_specs` attribute map.  The resolver only
exercises string attributes (sockets, types, form factors), numeric
attributes (lengths, heights) and string arrays (supported motherboards). -/
inductive SpecValue
  | str (s : String)
  | num (q : ℚ)
  | arr (l : List String)
deriving DecidableEq, Repr

/-- JavaScript truthiness of a property access on the spec map: absent
properties are `undefined` (falsy), `""` and `0` are falsy, arrays are
truthy. -/
def jsTruthy : Option SpecValue → Bool
  | none => false
  | some (.str s) => s ≠ ""
  | some (.num q) => q ≠ 0
  | some (.arr _) => true

/-- Template-literal interpolation `${v}` of a spec value. -/
def specToString : Option SpecValue → String
  | none => "undefined"
  | some (.str s) => s
  | some (.num q) => toString q
  | some (.arr l) => String.intercalate "," l

/-- The JavaScript `Array.prototype.includes` on a spec value (strict equality), `false`
when the receiver is not an array or the argument is not a string. -/
def specIncludes : Option SpecValue → Option SpecValue → Bool
  | some (.arr l), some (.str s) => l.contains s
  | _, _ => false

/-- The JavaScript `>` comparison as used on the numeric spec attributes;
the claims only exercise the number/number case. -/
def jsGreater : Option SpecValue → Option SpecValue → Bool
  | some (.num a), some (.num b) => a > b
  | _, _ => false

/-- A product as seen by both compatibility stages: its category string, its
`technical_specs` attribute map (association list), and its persisted anchor
points (used by the backend Stage A filter). -/
structure Product where
  category : String
  technical_specs : List (String × SpecValue)
  anchor_points : List BackendAnchorPoint
deriving DecidableEq, Repr

/-- Property access `specs?.key` on a product's spec map. -/
def getSpec (p : Product) (key : String) : Option SpecValue :=
  p.technical_specs.lookup key

/-- The build state consulted by `checkCompatibility`.  The `case` step is
renamed `buildCase` because `case` is a Lean keyword. -/
structure BuildState where
  buildCase : Option Product
  motherboard : Option Product
deriving DecidableEq, Repr

/-- A compatibility verdict `{compatible: bool, reason?: string}`. -/
structure CompatVerdict where
  compatible : Bool
  reason : Option String
deriving DecidableEq, Repr

/-- The motherboard→case form-factor block of `checkCompatibility`
(`some` models its early return). -/
def checkMoboCase (category : String) (bs : BuildState) (p : Product) :
    Option CompatVerdict :=
  match bs.buildCase with
  | some c =>
    if category = "MOTHERBOARD" then
      let caseSupported := c.technical_specs.lookup "supported_motherboards"
      let moboFormFactor := p.technical_specs.lookup "form_factor"
      if jsTruthy caseSupported ∧ jsTruthy moboFormFactor then
        if ¬ specIncludes caseSupported moboFormFactor then
          some ⟨false, some ("Case doesn" ++ String.singleton (Char.ofNat 39) ++
            "t support " ++ specToString moboFormFactor)⟩
        else none
      else none
    else none
  | none => none

/-- The cpu→motherboard socket block of `checkCompatibility`. -/
def checkCpuSocket (category : String) (bs : BuildState) (p : Product) :
    Option CompatVerdict :=
  match bs.motherboard with
  | some mobo =>
    if category = "CPU" then
      let moboSocket := mobo.technical_specs.lookup "socket"
      let cpuSocket := p.technical_specs.lookup "socket"
      if jsTruthy moboSocket ∧ jsTruthy cpuSocket ∧ moboSocket ≠ cpuSocket then
        some ⟨false, some ("Socket mismatch (needs " ++ specToString moboSocket ++ ")")⟩
      else none
    else none
  | none => none

/-- The ram→motherboard memory-type block of `checkCompatibility`. -/
def checkRamType (category : String) (bs : BuildState) (p : Product) :
    Option CompatVerdict :=
  match bs.motherboard with
  | some mobo =>
    if category = "RAM" then
      let moboRamType := mobo.technical_specs.lookup "ram_type"
      let ramType := p.technical_specs.lookup "type"
      if jsTruthy moboRamType ∧ jsTruthy ramType ∧ moboRamType ≠ ramType then
        some ⟨false, some ("RAM type mismatch (needs " ++ specToString moboRamType ++ ")")⟩
      else none
    else none
  | none => none

/-- The gpu→case length block of `checkCompatibility`. -/
def checkGpuLength (category : String) (bs : BuildState) (p : Product) :
    Option CompatVerdict :=
  match bs.buildCase with
  | some c =>
    if category = "GPU" then
      let maxGpuLength := c.technical_specs.lookup "max_gpu_length_mm"
      let gpuLength := p.technical_specs.lookup "length_mm"
      if jsTruthy maxGpuLength ∧ jsTruthy gpuLength ∧ jsGreater gpuLength maxGpuLength then
        some ⟨false, some ("GPU too long (max " ++ specToString maxGpuLength ++ "mm)")⟩
      else none
    else none
  | none => none

/-- The cooler→case height block of `checkCompatibility`. -/
def checkCoolerHeight (category : String) (bs : BuildState) (p : Product) :
    Option CompatVerdict :=
  match bs.buildCase with
  | some c =>
    if category = "CPU_COOLER" then
      let maxCoolerHeight := c.technical_specs.lookup "max_cpu_cooler_height_mm"
      let coolerHeight := p.technical_specs.lookup "height_mm"
      if jsTruthy maxCoolerHeight ∧ jsTruthy coolerHeight ∧
          jsGreater coolerHeight maxCoolerHeight then
        some ⟨false, some ("Cooler too tall (max " ++ specToString maxCoolerHeight ++ "mm)")⟩
      else none
    else none
  | none => none

/-- Stage B resolver `checkCompatibility(product)`; the sequential early
returns of the source are chained, falling through to `{compatible: true}`. -/
def checkCompatibility (category : String) (bs : BuildState) (p : Product) :
    CompatVerdict :=
  match checkMoboCase category bs p with
  | some v => v
  | none =>
  match checkCpuSocket category bs p with
  | some v => v
  | none =>
  match checkRamType category bs p with
  | some v => v
  | none =>
  match checkGpuLength category bs p with
  | some v => v
  | none =>
  match checkCoolerHeight category bs p with
  | some v => v
  | none => ⟨true, none⟩

/-- The per-candidate predicate of the backend `FilterBySocketCompatibility`:
keep a candidate without a `socket` attribute or with a non-string one;
otherwise keep it iff some anchor of the parent lists the socket string or
the candidate's category among its compatible types. -/
def socketKeep (parent : Product) (candidate : Product) : Bool :=
  match candidate.technical_specs.lookup "socket" with
  | none => true
  | some (.str socketStr) =>
    parent.anchor_points.any (fun anchor =>
      anchor.compatible_types.any (fun compatType =>
        compatType = socketStr ∨ compatType = candidate.category))
  | some _ => true

/-- Stage A backend filter `FilterBySocketCompatibility(parent, candidates)`. -/
def FilterBySocketCompatibility (parent : Product) (candidates : List Product) :
    List Product :=
  candidates.filter (socketKeep parent)

/-! ## Placement Composer (components/builder/BuilderCanvas.tsx)

The composer applies `THREE.Vector3.applyEuler`, so its scalars are modelled
as real numbers; the definitions below are noncomputable only because of
real-number trigonometry. -/

noncomputable section

/-- The constant `SCALE_FACTOR`: models are in centimeters, displayed at 1 unit = 10cm. -/
def SCALE_FACTOR : ℝ := 0.1

/-- The API anchor format received from the backend (`ApiAnchor`). -/
structure ApiAnchor where
  name : String
  label : String
  position : Vec3 ℝ
  rotation : Vec3 ℝ
  direction : String
  connection_axis : String
  compatible_types : List String

/-- The converted internal anchor used by the canvas (`convertApiAnchor`
produces the store's `Anchor` shape; at runtime its `type` is the API name
string and its scalars are plain numbers). -/
structure CanvasAnchor where
  id : String
  type : String
  label : String
  position : Vec3 ℝ
  rotation : Vec3 ℝ
  direction : String
  connectionAxis : String
  compatibleWith : List String

/-- Conversion `convertApiAnchor`: the label doubles as the id. -/
def convertApiAnchor (apiAnchor : ApiAnchor) : CanvasAnchor :=
  { id := apiAnchor.label,
    type := apiAnchor.name,
    label := apiAnchor.label,
    position := apiAnchor.position,
    rotation := apiAnchor.rotation,
    direction := apiAnchor.direction,
    connectionAxis := apiAnchor.connection_axis,
    compatibleWith := apiAnchor.compatible_types }

/-- Conversion `convertApiAnchors`. -/
def convertApiAnchors (apiAnchors : List ApiAnchor) : List CanvasAnchor :=
  apiAnchors.map convertApiAnchor

/-- A build-step component as consumed by the composer: its step id, its
anchor list and the optional quantity (used for memory modules).  Fields the
composer never reads (name, price, model url, technical specs) are omitted. -/
structure SelectedComponent where
  stepId : String
  anchor_points : List ApiAnchor
  quantity : Option Nat

/-- The rotation `THREE.Vector3.applyEuler` with the default `XYZ` Euler order:
multiplication by the rotation matrix `Rx · Ry · Rz` (three.js
`Matrix4.makeRotationFromEuler`). -/
def Vec3.applyEuler (v : Vec3 ℝ) (e : Vec3 ℝ) : Vec3 ℝ :=
  let a := Real.cos e.x
  let b := Real.sin e.x
  let c := Real.cos e.y
  let d := Real.sin e.y
  let e2 := Real.cos e.z
  let f := Real.sin e.z
  ⟨c * e2 * v.x + (-(c * f)) * v.y + d * v.z,
   (a * f + b * e2 * d) * v.x + (a * e2 - b * f * d) * v.y + (-(b * c)) * v.z,
   (b * f - a * e2 * d) * v.x + (b * e2 + a * f * d) * v.y + a * c * v.z⟩

/-- Componentwise scaling by `SCALE_FACTOR` (`position[i] * SCALE_FACTOR`). -/
def scaleVec (v : Vec3 ℝ) : Vec3 ℝ :=
  ⟨v.x * SCALE_FACTOR, v.y * SCALE_FACTOR, v.z * SCALE_FACTOR⟩

/-- A world transform `{position, rotation}` (rotation as Euler angles). -/
structure ComponentTransform where
  position : Vec3 ℝ
  rotation : Vec3 ℝ

/-- The value `new THREE.Vector3()` with `new THREE.Euler()`: the default transform
used when a parent transform is missing from the record. -/
def identityTransform : ComponentTransform := ⟨⟨0, 0, 0⟩, ⟨0, 0, 0⟩⟩

/-- The `componentTransforms` record.  The `"case"` entry is always written
(hence not optional); it is named `caseT` because `case` is a Lean keyword. -/
structure ComposedTransforms where
  caseT : ComponentTransform
  motherboard : Option ComponentTransform
  cpu : Option ComponentTransform
  cpu_cooler : Option ComponentTransform
  gpu : Option ComponentTransform
  psu : Option ComponentTransform
  storage : Option ComponentTransform

/-- The motherboard block: position the motherboard at the case's
`mobo_mount_area` anchor, offset by the motherboard's `mobo_backplate`
anchor, with a `+π/2` X-axis correction standing the flat-authored model
upright; fallback `(0,1,0)` when the mount anchor is missing. -/
def composeMotherboard (caseComponent moboComponent : Option SelectedComponent) :
    Option ComponentTransform :=
  match caseComponent, moboComponent with
  | some cc, some mc =>
    let caseAnchors := convertApiAnchors cc.anchor_points
    let moboAnchors := convertApiAnchors mc.anchor_points
    let mountArea := caseAnchors.find? (fun a => a.type == "mobo_mount_area")
    let moboBackplate := moboAnchors.find? (fun a => a.type == "mobo_backplate")
    match mountArea with
    | some ma =>
      let mountPos := scaleVec ma.position
      let mountPos :=
        match moboBackplate with
        | some bp => mountPos - scaleVec bp.position
        | none => mountPos
      some ⟨mountPos, ⟨ma.rotation.x + Real.pi / 2, ma.rotation.y, ma.rotation.z⟩⟩
    | none => some ⟨⟨0, 1, 0⟩, ⟨0, 0, 0⟩⟩
  | _, _ => none

/-- The cpu block: position the CPU at the motherboard's `cpu_socket`
anchor (rotated into world space), offset by the CPU's `cpu_bottom` anchor;
the CPU inherits the motherboard's world rotation.  Fallback `(0,1.5,0)`
when the socket anchor is missing. -/
def composeCpu (moboComponent cpuComponent : Option SelectedComponent)
    (moboTransformOpt : Option ComponentTransform) : Option ComponentTransform :=
  match moboComponent, cpuComponent with
  | some mc, some cc =>
    let moboAnchors := convertApiAnchors mc.anchor_points
    let cpuAnchors := convertApiAnchors cc.anchor_points
    let socket := moboAnchors.find? (fun a => a.type == "cpu_socket")
    let cpuBottom := cpuAnchors.find? (fun a => a.type == "cpu_bottom")
    match socket with
    | some sk =>
      let moboTransform := moboTransformOpt.getD identityTransform
      let socketOffset := (scaleVec sk.position).applyEuler moboTransform.rotation
      let cpuPos := moboTransform.position + socketOffset
      let cpuPos :=
        match cpuBottom with
        | some cb => cpuPos - (scaleVec cb.position).applyEuler moboTransform.rotation
        | none => cpuPos
      some ⟨cpuPos, moboTransform.rotation⟩
    | none => some ⟨⟨0, 1.5, 0⟩, ⟨0, 0, 0⟩⟩
  | _, _ => none

/-- The cpu-cooler block: the cooler's rotation is the CPU rotation plus the
`cooler_plate` anchor rotation; its position is the plate offset in the
CPU's rotated space minus the `cooler_base` offset in the cooler's rotated
space.  Fallback: `0.5` above the CPU. -/
def composeCooler (cpuComponent coolerComponent : Option SelectedComponent)
    (cpuTransformOpt : Option ComponentTransform) : Option ComponentTransform :=
  match cpuComponent, coolerComponent with
  | some cc, some kc =>
    let cpuAnchors := convertApiAnchors cc.anchor_points
    let coolerAnchors := convertApiAnchors kc.anchor_points
    let coolerPlate := cpuAnchors.find? (fun a => a.type == "cooler_plate")
    let coolerBase := coolerAnchors.find? (fun a => a.type == "cooler_base")
    match coolerPlate with
    | some cp =>
      let cpuTransform := cpuTransformOpt.getD identityTransform
      let coolerRotation : Vec3 ℝ := cpuTransform.rotation + cp.rotation
      let plateOffset := (scaleVec cp.position).applyEuler cpuTransform.rotation
      let coolerPos := cpuTransform.position + plateOffset
      let coolerPos :=
        match coolerBase with
        | some cb => coolerPos - (scaleVec cb.position).applyEuler coolerRotation
        | none => coolerPos
      some ⟨coolerPos, coolerRotation⟩
    | none =>
      let cpuTransform := cpuTransformOpt.getD identityTransform
      some ⟨⟨cpuTransform.position.x, cpuTransform.position.y + 0.5,
             cpuTransform.position.z⟩, cpuTransform.rotation⟩
  | _, _ => none

/-- The gpu block: position from the motherboard's `pcie_x16` anchor minus
the GPU's `pcie_edge` offset; rotation is the motherboard rotation plus the
slot anchor rotation.  Fallback `(0,0,2)`. -/
def composeGpu (moboComponent gpuComponent : Option SelectedComponent)
    (moboTransformOpt : Option ComponentTransform) : Option ComponentTransform :=
  match moboComponent, gpuComponent with
  | some mc, some gc =>
    let moboAnchors := convertApiAnchors mc.anchor_points
    let gpuAnchors := convertApiAnchors gc.anchor_points
    let pcie := moboAnchors.find? (fun a => a.type == "pcie_x16")
    let pcieEdge := gpuAnchors.find? (fun a => a.type == "pcie_edge")
    match pcie with
    | some pc =>
      let moboTransform := moboTransformOpt.getD identityTransform
      let pcieOffset := (scaleVec pc.position).applyEuler moboTransform.rotation
      let gpuPos := moboTransform.position + pcieOffset
      let gpuPos :=
        match pcieEdge with
        | some pe => gpuPos - (scaleVec pe.position).applyEuler moboTransform.rotation
        | none => gpuPos
      some ⟨gpuPos, moboTransform.rotation + pc.rotation⟩
    | none => some ⟨⟨0, 0, 2⟩, ⟨0, 0, 0⟩⟩
  | _, _ => none

/-- The psu block: position from the case's `psu_bay` anchor minus the PSU's
`psu_mount` offset (no rotation applied to either offset); rotation is the
bay anchor rotation.  Fallback `(0,-2,0)` with zero rotation. -/
def composePsu (caseComponent psuComponent : Option SelectedComponent) :
    Option ComponentTransform :=
  match caseComponent, psuComponent with
  | some cc, some pc =>
    let caseAnchors := convertApiAnchors cc.anchor_points
    let psuAnchors := convertApiAnchors pc.anchor_points
    let psuBay := caseAnchors.find? (fun a => a.type == "psu_bay")
    let psuMount := psuAnchors.find? (fun a => a.type == "psu_mount")
    match psuBay with
    | some pb =>
      let psuPos := scaleVec pb.position
      let psuPos :=
        match psuMount with
        | some pm => psuPos - scaleVec pm.position
        | none => psuPos
      some ⟨psuPos, pb.rotation⟩
    | none => some ⟨⟨0, -2, 0⟩, ⟨0, 0, 0⟩⟩
  | _, _ => none

/-- The storage block: prefer the motherboard's `m2_slot` (with the
storage's `m2_edge` offset, inheriting the motherboard rotation); otherwise
a case drive bay (`drive_bay_25` or `drive_bay_35`); otherwise the fallback
`(-2,0,0)`. -/
def composeStorage (caseComponent moboComponent storageComponent :
    Option SelectedComponent) (moboTransformOpt : Option ComponentTransform) :
    Option ComponentTransform :=
  match storageComponent with
  | some sc =>
    let moboAnchors :=
      match moboComponent with
      | some mc => convertApiAnchors mc.anchor_points
      | none => []
    let caseAnchors :=
      match caseComponent with
      | some cc => convertApiAnchors cc.anchor_points
      | none => []
    let storageAnchors := convertApiAnchors sc.anchor_points
    let m2Slot := moboAnchors.find? (fun a => a.type == "m2_slot")
    let m2Edge := storageAnchors.find? (fun a => a.type == "m2_edge")
    match m2Slot, moboComponent with
    | some ms, some _ =>
      let moboTransform := moboTransformOpt.getD identityTransform
      let slotOffset := (scaleVec ms.position).applyEuler moboTransform.rotation
      let storagePos := moboTransform.position + slotOffset
      let storagePos :=
        match m2Edge with
        | some me => storagePos - (scaleVec me.position).applyEuler moboTransform.rotation
        | none => storagePos
      some ⟨storagePos, moboTransform.rotation⟩
    | _, _ =>
      match caseAnchors.find? (fun a => a.type == "drive_bay_25" ||
          a.type == "drive_bay_35") with
      | some db => some ⟨scaleVec db.position, db.rotation⟩
      | none => some ⟨⟨-2, 0, 0⟩, ⟨0, 0, 0⟩⟩
  | none => none

/-- The `componentTransforms` memo of `Scene`: the case sits at the identity
transform and each further step is composed from its parent edge in the
fixed order of the source. -/
def composeTransforms (selectedComponents : List SelectedComponent) :
    ComposedTransforms :=
  let caseComponent := selectedComponents.find? (fun c => c.stepId == "case")
  let moboComponent := selectedComponents.find? (fun c => c.stepId == "motherboard")
  let cpuComponent := selectedComponents.find? (fun c => c.stepId == "cpu")
  let coolerComponent := selectedComponents.find? (fun c => c.stepId == "cpu_cooler")
  let gpuComponent := selectedComponents.find? (fun c => c.stepId == "gpu")
  let psuComponent := selectedComponents.find? (fun c => c.stepId == "psu")
  let storageComponent := selectedComponents.find? (fun c => c.stepId == "storage")
  let motherboard := composeMotherboard caseComponent moboComponent
  let cpu := composeCpu moboComponent cpuComponent motherboard
  let cpu_cooler := composeCooler cpuComponent coolerComponent cpu
  let gpu := composeGpu moboComponent gpuComponent motherboard
  let psu := composePsu caseComponent psuComponent
  let storage := composeStorage caseComponent moboComponent storageComponent motherboard
  { caseT := identityTransform,
    motherboard := motherboard,
    cpu := cpu,
    cpu_cooler := cpu_cooler,
    gpu := gpu,
    psu := psu,
    storage := storage }

/-- The memo `getRamTransforms(moboComponent, quantity)`: one transform per
`ram_slot` anchor in stable label order, up to `quantity`; remaining
instances fall back to positions spaced along the x axis relative to the
motherboard transform.  The while loop of the source is modelled by
appending the missing tail. -/
def getRamTransforms (componentTransforms : ComposedTransforms)
    (moboComponent : Option SelectedComponent) (quantity : Nat) :
    List ComponentTransform :=
  let moboTransform := componentTransforms.motherboard.getD identityTransform
  let slotTransforms : List ComponentTransform :=
    match moboComponent with
    | some mc =>
      let ramSlots :=
        ((convertApiAnchors mc.anchor_points).filter (fun a => a.type == "ram_slot")
          ).mergeSort (fun a b => a.label ≤ b.label)
      (ramSlots.take quantity).map (fun slot =>
        let slotOffset := (scaleVec slot.position).applyEuler moboTransform.rotation
        ⟨moboTransform.position + slotOffset, moboTransform.rotation⟩)
    | none => []
  slotTransforms ++ (List.range (quantity - slotTransforms.length)).map (fun j =>
    let n := slotTransforms.length + j
    let fallbackOffset :=
      (Vec3.mk (1.5 + (n : ℝ) * 0.3) 0.1 0).applyEuler moboTransform.rotation
    ⟨moboTransform.position + fallbackOffset, moboTransform.rotation⟩)

end

/-! ## Theorems

### Claim C7 — duplicateAnchor -/

/-- Claim C7: duplicating an existing anchor appends a clone with the fresh
id (distinct from every existing id by the uuid-freshness assumption,
modelled as the `hfresh` hypothesis), the label recomputed by the counter
rule against the pre-duplication list, the position offset by `+1` on the x
axis, all other fields copied from the original, every pre-existing anchor
left unchanged, and the selection set to the duplicate's id. -/
theorem c7_duplicate_anchor (s : AnchorState) (X newId : String) (a : Anchor)
    (hfind : s.anchors.find? (fun b => b.id = X) = some a)
    (hfresh : newId ∉ s.anchors.map Anchor.id) :
    (duplicateAnchor newId X s).anchors =
      s.anchors ++ [{ a with
        id := newId,
        label := (ANCHOR_TYPE_INFO a.type).label ++ " " ++
          toString ((s.anchors.filter (fun b => b.type = a.type)).length + 1),
        position := ⟨a.position.x + 1, a.position.y, a.position.z⟩ }] ∧
    (duplicateAnchor newId X s).selectedAnchorId = some newId ∧
    newId ∉ s.anchors.map Anchor.id := by
  unfold duplicateAnchor
  rw [hfind]
  exact ⟨rfl, rfl, hfresh⟩

/-- An anchor list with a single `ram_slot` anchor labeled "RAM Slot 1" at
position `(1,0,0)`, the fixture of spec property P3. -/
def c7Anchor : Anchor :=
  ⟨"id1", .ram_slot, "RAM Slot 1", ⟨1, 0, 0⟩, ⟨0, 0, 0⟩, "output", "Y_NEG", ["ram_edge"]⟩

/-- Witness for C7 at the P3 fixture: the duplicate gets label "RAM Slot 2"
and position `(2,0,0)`, and becomes selected. -/
theorem c7_duplicate_anchor_witness :
    (duplicateAnchor "id2" "id1" ⟨[c7Anchor], none⟩).anchors =
      [c7Anchor] ++ [{ c7Anchor with
        id := "id2",
        label := (ANCHOR_TYPE_INFO c7Anchor.type).label ++ " " ++
          toString (([c7Anchor].filter (fun b => b.type = c7Anchor.type)).length + 1),
        position := ⟨c7Anchor.position.x + 1, c7Anchor.position.y, c7Anchor.position.z⟩ }] ∧
    (duplicateAnchor "id2" "id1" ⟨[c7Anchor], none⟩).selectedAnchorId = some "id2" ∧
    "id2" ∉ [c7Anchor].map Anchor.id :=
  c7_duplicate_anchor ⟨[c7Anchor], none⟩ "id1" "id2" c7Anchor (by decide) (by decide)

/-! ### Claim C9 — operations on a missing id -/

/-- Claim C9 counterexample: with an empty anchor list (so the id "x" is not
present) but a stale selection "x", `removeAnchor "x"` changes the state:
it clears the selection.  The claim that every store operation on a missing
id leaves the entire state unchanged is therefore false. -/
theorem c9_counterexample :
    (∀ a ∈ ([] : List Anchor), ¬ a.id = "x") ∧
    removeAnchor "x" ⟨[], some "x"⟩ ≠ ⟨[], some "x"⟩ := by
  decide

/-- Claim C9 (amended): for an id not present in the anchor list,
`updateAnchor` and `duplicateAnchor` are strict no-ops, `removeAnchor`
leaves the anchor list unchanged, and `removeAnchor` also leaves the whole
state unchanged provided the current selection is not that (stale) id; no
operation throws (all are total functions). -/
theorem c9_missing_id_noop (s : AnchorState) (id newId : String) (u : AnchorUpdates)
    (h : ∀ a ∈ s.anchors, ¬ a.id = id) :
    updateAnchor id u s = s ∧
    duplicateAnchor newId id s = s ∧
    (removeAnchor id s).anchors = s.anchors ∧
    (s.selectedAnchorId ≠ some id → removeAnchor id s = s) := by
  have hfind : s.anchors.find? (fun a => a.id = id) = none :=
    List.find?_eq_none.mpr (by simpa using h)
  have hupd : updateAnchor id u s = s := by
    unfold updateAnchor
    have : s.anchors.map (fun anchor =>
        if anchor.id = id then mergeAnchor anchor u else anchor) = s.anchors := by
      rw [List.map_congr_left (fun a ha => if_neg (h a ha))]
      exact List.map_id' s.anchors
    cases s
    simp_all
  have hrem : (removeAnchor id s).anchors = s.anchors := by
    unfold removeAnchor
    show s.anchors.filter (fun a => ¬ a.id = id) = s.anchors
    apply List.filter_eq_self.mpr
    intro a ha
    simpa using h a ha
  refine ⟨hupd, ?_, hrem, ?_⟩
  · unfold duplicateAnchor
    rw [hfind]
  · intro hsel
    unfold removeAnchor
    cases s with
    | mk anchors sel =>
      simp only [AnchorState.mk.injEq]
      constructor
      · simpa [removeAnchor] using hrem
      · simp only at hsel
        rw [if_neg hsel]

/-- Witness for C9 (amended) at a concrete state: one anchor `"id1"`, the
missing id `"zz"`. -/
theorem c9_missing_id_noop_witness :
    updateAnchor "zz" { label := some "L" } ⟨[c7Anchor], some "id1"⟩ = ⟨[c7Anchor], some "id1"⟩ ∧
    duplicateAnchor "newid" "zz" ⟨[c7Anchor], some "id1"⟩ = ⟨[c7Anchor], some "id1"⟩ ∧
    (removeAnchor "zz" ⟨[c7Anchor], some "id1"⟩).anchors = [c7Anchor] ∧
    ((some "id1" : Option String) ≠ some "zz" →
      removeAnchor "zz" ⟨[c7Anchor], some "id1"⟩ = ⟨[c7Anchor], some "id1"⟩) :=
  c9_missing_id_noop ⟨[c7Anchor], some "id1"⟩ "zz" "newid" { label := some "L" } (by decide)

/-! ### Claim C10 — order preservation -/

/-- Claim C10: every store operation preserves the relative order of the
surviving anchors: `addAnchor` and `duplicateAnchor` append (the previous
list is a prefix of the new one, and `addAnchor` adds exactly one element),
`updateAnchor` rewrites in place (the id sequence is unchanged, and every
non-matched anchor survives as-is), and `removeAnchor` yields a sublist of
the original list containing every anchor whose id differs from the target. -/
theorem c10_order_preservation :
    (∀ newId type label s, (addAnchor newId type label s).anchors.length =
        s.anchors.length + 1 ∧
      s.anchors <+: (addAnchor newId type label s).anchors) ∧
    (∀ newId id s, s.anchors <+: (duplicateAnchor newId id s).anchors) ∧
    (∀ id u s, (updateAnchor id u s).anchors.map Anchor.id = s.anchors.map Anchor.id ∧
      ∀ a ∈ s.anchors, ¬ a.id = id → a ∈ (updateAnchor id u s).anchors) ∧
    (∀ id s, (removeAnchor id s).anchors.Sublist s.anchors ∧
      ∀ a ∈ s.anchors, ¬ a.id = id → a ∈ (removeAnchor id s).anchors) := by
  refine ⟨?_, ?_, ?_, ?_⟩
  · intro newId type label s
    constructor
    · simp [addAnchor]
    · exact List.prefix_append _ _
  · intro newId id s
    unfold duplicateAnchor
    cases s.anchors.find? (fun a => a.id = id) with
    | none => exact List.prefix_rfl
    | some a => exact List.prefix_append _ _
  · intro id u s
    constructor
    · unfold updateAnchor
      simp only [List.map_map]
      refine List.map_congr_left (fun a _ => ?_)
      by_cases hid : a.id = id
      · simp [hid, mergeAnchor]
      · simp [hid]
    · intro a ha hneq
      unfold updateAnchor
      simp only
      have : (if a.id = id then mergeAnchor a u else a) = a := if_neg hneq
      exact this ▸ List.mem_map_of_mem _ ha
  · intro id s
    constructor
    · exact List.filter_sublist _
    · intro a ha hneq
      unfold removeAnchor
      simp only
      exact List.mem_filter.mpr ⟨ha, by simpa using hneq⟩

/-- Witness for C10 at concrete inputs. -/
theorem c10_order_preservation_witness :
    ((addAnchor "n1" .ram_slot none ⟨[c7Anchor], none⟩).anchors.length =
        [c7Anchor].length + 1 ∧
      [c7Anchor] <+: (addAnchor "n1" .ram_slot none ⟨[c7Anchor], none⟩).anchors) ∧
    ([c7Anchor] <+: (duplicateAnchor "n2" "id1" ⟨[c7Anchor], none⟩).anchors) ∧
    ((updateAnchor "id1" { label := some "L" } ⟨[c7Anchor], none⟩).anchors.map Anchor.id =
        [c7Anchor].map Anchor.id ∧
      ∀ a ∈ [c7Anchor], ¬ a.id = "id1" →
        a ∈ (updateAnchor "id1" { label := some "L" } ⟨[c7Anchor], none⟩).anchors) ∧
    ((removeAnchor "id1" ⟨[c7Anchor], none⟩).anchors.Sublist [c7Anchor] ∧
      ∀ a ∈ [c7Anchor], ¬ a.id = "id1" →
        a ∈ (removeAnchor "id1" ⟨[c7Anchor], none⟩).anchors) :=
  ⟨⟨(c10_order_preservation.1 "n1" .ram_slot none ⟨[c7Anchor], none⟩).1,
    (c10_order_preservation.1 "n1" .ram_slot none ⟨[c7Anchor], none⟩).2⟩,
   c10_order_preservation.2.1 "n2" "id1" ⟨[c7Anchor], none⟩,
   c10_order_preservation.2.2.1 "id1" { label := some "L" } ⟨[c7Anchor], none⟩,
   c10_order_preservation.2.2.2 "id1" ⟨[c7Anchor], none⟩⟩

/-! ### Claim C8 — serialization round trip -/

/-- Helper for C8: parsing the serialization of an anchor list, for any
starting index, succeeds and reproduces every persisted field, provided no
anchor has an empty (falsy) `label`; the `direction`/`connectionAxis`
non-emptiness hypotheses encode the TypeScript string-literal types of those
fields. -/
theorem parse_serialize_enumFrom (now : Nat) (l : List Anchor) :
    ∀ n, (∀ a ∈ l, a.label ≠ "" ∧ a.direction ≠ "" ∧ a.connectionAxis ≠ "") →
    ∃ l2, ((l.map serializeAnchor).enumFrom n).mapM
        (fun p => parseAnchorPoint now p.1 p.2) = some l2 ∧
      List.Forall₂ anchorContentEq l2 l := by
  induction l with
  | nil => exact fun n _ => ⟨[], rfl, List.Forall₂.nil⟩
  | cons a t ih =>
    intro n h
    obtain ⟨hl, hd, hc⟩ := h a (List.mem_cons_self a t)
    obtain ⟨l2, hm, hf⟩ := ih (n + 1) (fun b hb => h b (List.mem_cons_of_mem a hb))
    have hhead : parseAnchorPoint now n (serializeAnchor a) =
        some { a with id := "anchor-" ++ toString n ++ "-" ++ toString now } := by
      unfold parseAnchorPoint serializeAnchor
      simp only [anchorTypeOfName_name]
      rw [if_neg hl, if_neg hd, if_neg hc]
      rfl
    refine ⟨{ a with
        id := "anchor-" ++ toString n ++ "-" ++ toString now } :: l2, ?_, ?_⟩
    · rw [List.map_cons, List.enumFrom_cons, List.mapM_cons, hhead, hm]
      rfl
    · exact List.Forall₂.cons ⟨rfl, rfl, rfl, rfl, rfl, rfl, rfl⟩ hf

/-- Claim C8 counterexample: an anchor whose `label` is the empty string
(reachable in the editor through `updateAnchor`) does not survive the round
trip: the parse replaces the empty label by the fallback "Anchor 1", so the
parsed list is not value-equal to the original. -/
theorem c8_counterexample :
    (parseAnchorPoints 0 ([⟨"a1", .cpu_socket, "", ⟨0, 0, 0⟩, ⟨0, 0, 0⟩, "output",
        "Y_NEG", ["cpu_bottom"]⟩].map serializeAnchor)).map
      (fun l => l.map Anchor.label) = some ["Anchor 1"] ∧
    ("Anchor 1" : String) ≠ "" := by
  decide

/-- Claim C8 (amended): serializing an editor anchor list to the persisted
representation and parsing it back succeeds and yields a list value-equal on
every persisted field (`type`/`name`, `label`, `position`, `rotation`,
`direction`, `connection_axis`, and `compatible_types` — reproduced exactly,
hence in particular as order-insensitive sets), provided every anchor's
label is non-empty (an empty label is falsy and replaced by the parse
fallback).  Non-emptiness of `direction` and `connectionAxis` restates their
TypeScript string-literal types. -/
theorem c8_round_trip (now : Nat) (l : List Anchor)
    (h : ∀ a ∈ l, a.label ≠ "" ∧ a.direction ≠ "" ∧ a.connectionAxis ≠ "") :
    ∃ l2, parseAnchorPoints now (l.map serializeAnchor) = some l2 ∧
      List.Forall₂ anchorContentEq l2 l := by
  have := parse_serialize_enumFrom now l 0 h
  simpa [parseAnchorPoints, List.enum_eq_enumFrom] using this

/-- Witness for C8 at a concrete one-anchor list. -/
theorem c8_round_trip_witness :
    ∃ l2, parseAnchorPoints 7 ([c7Anchor].map serializeAnchor) = some l2 ∧
      List.Forall₂ anchorContentEq l2 [c7Anchor] :=
  c8_round_trip 7 [c7Anchor] (by decide)

/-! ### Claim C5 — permissive-on-missing socket -/

/-- Claim C5: a candidate CPU whose technical specs contain no `socket`
attribute is excluded by neither compatibility stage: the Stage B resolver
returns the compatible verdict (the socket check is skipped), and the
Stage A backend filter keeps the candidate; conversely, Stage B excludes a
CPU candidate only when both the motherboard and the candidate declare
truthy socket values that differ, and Stage A drops a candidate only when it
declares a socket string matched by no compatible type of any parent
anchor. -/
theorem c5_socket_permissive :
    (∀ bs p, p.technical_specs.lookup "socket" = none →
      checkCompatibility "CPU" bs p = ⟨true, none⟩) ∧
    (∀ parent candidates p, p ∈ candidates →
      p.technical_specs.lookup "socket" = none →
      p ∈ FilterBySocketCompatibility parent candidates) ∧
    (∀ bs p, checkCompatibility "CPU" bs p ≠ ⟨true, none⟩ →
      ∃ mobo v w, bs.motherboard = some mobo ∧
        mobo.technical_specs.lookup "socket" = some v ∧
        p.technical_specs.lookup "socket" = some w ∧
        jsTruthy (some v) = true ∧ jsTruthy (some w) = true ∧ v ≠ w) ∧
    (∀ parent candidates p, p ∈ candidates →
      p ∉ FilterBySocketCompatibility parent candidates →
      ∃ s, p.technical_specs.lookup "socket" = some (.str s) ∧
        parent.anchor_points.any (fun anchor =>
          anchor.compatible_types.any (fun ct => ct = s ∨ ct = p.category)) = false) := by
  refine ⟨?_, ?_, ?_, ?_⟩
  · intro bs p hnone
    obtain ⟨bc, bm⟩ := bs
    cases bc <;> cases bm <;>
      simp [checkCompatibility, checkMoboCase, checkCpuSocket, checkRamType,
        checkGpuLength, checkCoolerHeight, hnone, jsTruthy]
  · intro parent candidates p hmem hnone
    exact List.mem_filter.mpr ⟨hmem, by simp [socketKeep, hnone]⟩
  · intro bs p hne
    obtain ⟨bc, bm⟩ := bs
    cases bm with
    | none =>
      exfalso
      apply hne
      cases bc <;>
        simp [checkCompatibility, checkMoboCase, checkCpuSocket, checkRamType,
          checkGpuLength, checkCoolerHeight]
    | some mobo =>
      by_cases hcond : jsTruthy (mobo.technical_specs.lookup "socket") = true ∧
          jsTruthy (p.technical_specs.lookup "socket") = true ∧
          mobo.technical_specs.lookup "socket" ≠ p.technical_specs.lookup "socket"
      · obtain ⟨h1, h2, h3⟩ := hcond
        obtain ⟨v, hv⟩ : ∃ v, mobo.technical_specs.lookup "socket" = some v := by
          cases hx : mobo.technical_specs.lookup "socket" with
          | none => rw [hx] at h1; simp [jsTruthy] at h1
          | some v => exact ⟨v, rfl⟩
        obtain ⟨w, hw⟩ : ∃ w, p.technical_specs.lookup "socket" = some w := by
          cases hx : p.technical_specs.lookup "socket" with
          | none => rw [hx] at h2; simp [jsTruthy] at h2
          | some w => exact ⟨w, rfl⟩
        refine ⟨mobo, v, w, rfl, hv, hw, hv ▸ h1, hw ▸ h2, ?_⟩
        intro hvw
        exact h3 (by rw [hv, hw, hvw])
      · exfalso
        apply hne
        have hnone : checkCpuSocket "CPU" ⟨bc, some mobo⟩ p = none := by
          unfold checkCpuSocket
          simp only [if_pos rfl]
          rw [if_neg hcond]
          simp
        cases bc <;>
          simp [checkCompatibility, checkMoboCase, checkRamType,
            checkGpuLength, checkCoolerHeight, hnone]
  · intro parent candidates p hmem hnotmem
    have hkeep : socketKeep parent p = false := by
      by_cases hk : socketKeep parent p = true
      · exact absurd (List.mem_filter.mpr ⟨hmem, hk⟩) hnotmem
      · simpa using hk
    unfold socketKeep at hkeep
    cases hx : p.technical_specs.lookup "socket" with
    | none => rw [hx] at hkeep; simp at hkeep
    | some v =>
      cases v with
      | str s =>
        rw [hx] at hkeep
        refine ⟨s, rfl, ?_⟩
        simpa using hkeep
      | num q => rw [hx] at hkeep; simp at hkeep
      | arr l => rw [hx] at hkeep; simp at hkeep

/-- A motherboard declaring socket "AM4". -/
def c5Mobo : Product := ⟨"MOTHERBOARD", [("socket", .str "AM4")], []⟩

/-- A CPU candidate without a `socket` attribute. -/
def c5CpuNoSocket : Product := ⟨"CPU", [("cores", .num 8)], []⟩

/-- A CPU candidate declaring a mismatching socket. -/
def c5CpuBad : Product := ⟨"CPU", [("socket", .str "LGA1700")], []⟩

/-- A parent part whose only anchor accepts socket "AM4" (or category "CPU"
is not listed). -/
def c5Parent : Product :=
  ⟨"MOTHERBOARD", [],
    [⟨"cpu_socket", "CPU Socket 1", ⟨0, 0, 0⟩, ⟨0, 0, 0⟩, "output", "Y_NEG", ["AM4"]⟩]⟩

/-- Witness for C5 at concrete products. -/
theorem c5_socket_permissive_witness :
    checkCompatibility "CPU" ⟨none, some c5Mobo⟩ c5CpuNoSocket = ⟨true, none⟩ ∧
    c5CpuNoSocket ∈ FilterBySocketCompatibility c5Parent [c5CpuNoSocket] ∧
    (∃ mobo v w, (BuildState.mk none (some c5Mobo)).motherboard = some mobo ∧
      mobo.technical_specs.lookup "socket" = some v ∧
      c5CpuBad.technical_specs.lookup "socket" = some w ∧
      jsTruthy (some v) = true ∧ jsTruthy (some w) = true ∧ v ≠ w) ∧
    (∃ s, c5CpuBad.technical_specs.lookup "socket" = some (.str s) ∧
      c5Parent.anchor_points.any (fun anchor =>
        anchor.compatible_types.any (fun ct =>
          ct = s ∨ ct = c5CpuBad.category)) = false) :=
  ⟨c5_socket_permissive.1 ⟨none, some c5Mobo⟩ c5CpuNoSocket (by decide),
   c5_socket_permissive.2.1 c5Parent [c5CpuNoSocket] c5CpuNoSocket
     (List.mem_singleton.mpr rfl) (by decide),
   c5_socket_permissive.2.2.1 ⟨none, some c5Mobo⟩ c5CpuBad (by decide),
   c5_socket_permissive.2.2.2 c5Parent [c5CpuBad] c5CpuBad
     (List.mem_singleton.mpr rfl) (by decide)⟩

/-! ### Claim C6 — GPU length check -/

/-- Substring containment on strings. -/
def containsStr (hay pat : String) : Prop := pat.toList <:+: hay.toList

instance (hay pat : String) : Decidable (containsStr hay pat) := by
  unfold containsStr; infer_instance

/-- A case allowing GPUs up to 300mm. -/
def c6Case300 : Product := ⟨"CASE", [("max_gpu_length_mm", .num 300)], []⟩

/-- A case allowing GPUs up to 400mm. -/
def c6Case400 : Product := ⟨"CASE", [("max_gpu_length_mm", .num 400)], []⟩

/-- A 350mm GPU. -/
def c6Gpu350 : Product := ⟨"GPU", [("length_mm", .num 350)], []⟩

/-- Claim C6 counterexample: for the 350mm GPU against the 300mm case the
verdict is incompatible and its reason contains the max "300", but it does
NOT contain the actual length "350" — so the reason does not state the
actual length as claimed.  Against the 400mm case the verdict is
compatible. -/
theorem c6_counterexample :
    checkCompatibility "GPU" ⟨some c6Case300, none⟩ c6Gpu350 =
      ⟨false, some "GPU too long (max 300mm)"⟩ ∧
    containsStr "GPU too long (max 300mm)" "300" ∧
    ¬ containsStr "GPU too long (max 300mm)" "350" ∧
    checkCompatibility "GPU" ⟨some c6Case400, none⟩ c6Gpu350 = ⟨true, none⟩ := by
  decide

/-- Claim C6 (amended): when both the case's `max_gpu_length_mm` and the
GPU's `length_mm` are present (as nonzero, hence truthy, numbers), a length
exceeding the max yields `{compatible: false}` with a reason stating the max
(the reason contains the max's decimal string but not the actual length);
otherwise the verdict is `{compatible: true}`. -/
theorem c6_gpu_length (bs : BuildState) (c p : Product) (M L : ℚ)
    (hc : bs.buildCase = some c)
    (hM : c.technical_specs.lookup "max_gpu_length_mm" = some (.num M))
    (hL : p.technical_specs.lookup "length_mm" = some (.num L))
    (hM0 : M ≠ 0) (hL0 : L ≠ 0) :
    (L > M → checkCompatibility "GPU" bs p =
        ⟨false, some ("GPU too long (max " ++ toString M ++ "mm)")⟩ ∧
      containsStr ("GPU too long (max " ++ toString M ++ "mm)") (toString M)) ∧
    (¬ L > M → checkCompatibility "GPU" bs p = ⟨true, none⟩) := by
  obtain ⟨bc, bm⟩ := bs
  simp only at hc
  subst hc
  constructor
  · intro hgt
    constructor
    · cases bm <;>
        simp [checkCompatibility, checkMoboCase, checkCpuSocket, checkRamType,
          checkGpuLength, checkCoolerHeight, hM, hL, jsTruthy, jsGreater,
          specToString, hM0, hL0, hgt]
    · refine ⟨"GPU too long (max ".toList, "mm)".toList, ?_⟩
      simp [String.toList, String.data_append, List.append_assoc]
  · intro hle
    cases bm <;>
      simp [checkCompatibility, checkMoboCase, checkCpuSocket, checkRamType,
        checkGpuLength, checkCoolerHeight, hM, hL, jsTruthy, jsGreater,
        specToString, hM0, hL0, hle]

/-- Witness for C6 (amended) at the P4 fixture values 350mm / 300mm and
350mm / 400mm. -/
theorem c6_gpu_length_witness :
    checkCompatibility "GPU" ⟨some c6Case300, none⟩ c6Gpu350 =
      ⟨false, some ("GPU too long (max " ++ toString (300 : ℚ) ++ "mm)")⟩ ∧
    containsStr ("GPU too long (max " ++ toString (300 : ℚ) ++ "mm)")
      (toString (300 : ℚ)) ∧
    checkCompatibility "GPU" ⟨some c6Case400, none⟩ c6Gpu350 = ⟨true, none⟩ := by
  have h1 := (c6_gpu_length ⟨some c6Case300, none⟩ c6Case300 c6Gpu350 300 350
    rfl (by decide) (by decide) (by decide) (by decide)).1 (by norm_num)
  have h2 := (c6_gpu_length ⟨some c6Case400, none⟩ c6Case400 c6Gpu350 400 350
    rfl (by decide) (by decide) (by decide) (by decide)).2 (by norm_num)
  exact ⟨h1.1, h1.2, h2⟩

/-! ### Composer helper lemmas -/

theorem Vec3.applyEuler_zero_rot (v : Vec3 ℝ) : v.applyEuler ⟨0, 0, 0⟩ = v := by
  cases v
  simp [Vec3.applyEuler]

theorem Vec3.zero_add_vec (v : Vec3 ℝ) : (⟨0, 0, 0⟩ : Vec3 ℝ) + v = v := by
  cases v
  simp

@[simp] theorem Vec3.add_x [Add α] (a b : Vec3 α) : (a + b).x = a.x + b.x := rfl

@[simp] theorem Vec3.add_y [Add α] (a b : Vec3 α) : (a + b).y = a.y + b.y := rfl

@[simp] theorem Vec3.add_z [Add α] (a b : Vec3 α) : (a + b).z = a.z + b.z := rfl

theorem Vec3.eq_of_components {a b : Vec3 α} (hx : a.x = b.x) (hy : a.y = b.y)
    (hz : a.z = b.z) : a = b := by
  cases a
  cases b
  simp_all

/-! ### Claim C1 — P1 chain-composition fixture -/

/-- The P1 case: a `mobo_mount_area` anchor at local `(0,5,0)`. -/
noncomputable def p1CaseComp : SelectedComponent :=
  ⟨"case", [⟨"mobo_mount_area", "Motherboard Mount Area 1", ⟨0, 5, 0⟩, ⟨0, 0, 0⟩,
    "output", "Y_POS", ["mobo_backplate"]⟩], none⟩

/-- The P1 motherboard: `mobo_backplate` at `(0,0,0)`, `cpu_socket` at
`(2,0,0)`, rotations zero. -/
noncomputable def p1MoboComp : SelectedComponent :=
  ⟨"motherboard",
    [⟨"mobo_backplate", "Motherboard Backplate 1", ⟨0, 0, 0⟩, ⟨0, 0, 0⟩,
      "input", "Y_NEG", ["mobo_mount_area"]⟩,
     ⟨"cpu_socket", "CPU Socket 1", ⟨2, 0, 0⟩, ⟨0, 0, 0⟩,
      "output", "Y_NEG", ["cpu_bottom"]⟩], none⟩

/-- The P1 CPU: `cpu_bottom` at `(0,0,0)`, rotation zero. -/
noncomputable def p1CpuComp : SelectedComponent :=
  ⟨"cpu", [⟨"cpu_bottom", "CPU Contact 1", ⟨0, 0, 0⟩, ⟨0, 0, 0⟩,
    "input", "Y_NEG", ["cpu_socket"]⟩], none⟩

/-- Claim C1: on the literal P1 fixture (unit factor 0.1), the composer
assigns the CPU the world position `(0.2, 0.5, 0)`. -/
theorem c1_chain_composition :
    ((composeTransforms [p1CaseComp, p1MoboComp, p1CpuComp]).cpu).map
      ComponentTransform.position = some ⟨0.2, 0.5, 0⟩ := by
  have h1 : (composeTransforms [p1CaseComp, p1MoboComp, p1CpuComp]).cpu =
      composeCpu (some p1MoboComp) (some p1CpuComp)
        (composeMotherboard (some p1CaseComp) (some p1MoboComp)) := rfl
  have h2 : composeMotherboard (some p1CaseComp) (some p1MoboComp) =
      some ⟨scaleVec ⟨0, 5, 0⟩ - scaleVec ⟨0, 0, 0⟩, ⟨0 + Real.pi / 2, 0, 0⟩⟩ := rfl
  have h2' : composeMotherboard (some p1CaseComp) (some p1MoboComp) =
      some ⟨⟨0, 0.5, 0⟩, ⟨Real.pi / 2, 0, 0⟩⟩ := by
    rw [h2]
    simp [scaleVec, SCALE_FACTOR]
    norm_num
  have h3 : composeCpu (some p1MoboComp) (some p1CpuComp)
      (some ⟨⟨0, 0.5, 0⟩, ⟨Real.pi / 2, 0, 0⟩⟩) =
      some ⟨(⟨0, 0.5, 0⟩ : Vec3 ℝ) +
          (scaleVec ⟨2, 0, 0⟩).applyEuler ⟨Real.pi / 2, 0, 0⟩ -
          (scaleVec ⟨0, 0, 0⟩).applyEuler ⟨Real.pi / 2, 0, 0⟩,
        ⟨Real.pi / 2, 0, 0⟩⟩ := rfl
  rw [h1, h2', h3]
  simp [Vec3.applyEuler, scaleVec, SCALE_FACTOR, Real.cos_pi_div_two,
    Real.sin_pi_div_two]
  norm_num

/-! ### Claim C4 — PSU fallback -/

/-- Claim C4: whenever the selection contains a case and a PSU and the
case's anchor list has no `psu_bay` anchor, the composer returns the fixed
fallback placement `{(0,-2,0), (0,0,0)}` for the PSU — a defined value
(never `undefined`/`null`, no exception since the composer is a total
function), independent of any previously composed state (the result is a
constant). -/
theorem c4_psu_fallback (sel : List SelectedComponent) (k p : SelectedComponent)
    (hk : sel.find? (fun c => c.stepId == "case") = some k)
    (hp : sel.find? (fun c => c.stepId == "psu") = some p)
    (hnone : ∀ a ∈ k.anchor_points, a.name ≠ "psu_bay") :
    (composeTransforms sel).psu = some ⟨⟨0, -2, 0⟩, ⟨0, 0, 0⟩⟩ := by
  have hfind : (convertApiAnchors k.anchor_points).find?
      (fun a => a.type == "psu_bay") = none := by
    unfold convertApiAnchors
    rw [List.find?_map]
    have : k.anchor_points.find?
        ((fun a => a.type == "psu_bay") ∘ convertApiAnchor) = none := by
      apply List.find?_eq_none.mpr
      intro a ha
      simpa [convertApiAnchor] using hnone a ha
    rw [this]
    rfl
  show composePsu (sel.find? (fun c => c.stepId == "case"))
    (sel.find? (fun c => c.stepId == "psu")) = some ⟨⟨0, -2, 0⟩, ⟨0, 0, 0⟩⟩
  rw [hk, hp]
  simp only [composePsu]
  rw [hfind]

/-- A case with no anchors at all (in particular no `psu_bay`). -/
noncomputable def c4CaseComp : SelectedComponent := ⟨"case", [], none⟩

/-- A PSU with a `psu_mount` anchor. -/
noncomputable def c4PsuComp : SelectedComponent :=
  ⟨"psu", [⟨"psu_mount", "PSU Mount 1", ⟨1, 1, 1⟩, ⟨0, 0, 0⟩,
    "input", "Z_NEG", ["psu_bay"]⟩], none⟩

/-- Witness for C4 at a concrete selection. -/
theorem c4_psu_fallback_witness :
    (composeTransforms [c4CaseComp, c4PsuComp]).psu =
      some ⟨⟨0, -2, 0⟩, ⟨0, 0, 0⟩⟩ :=
  c4_psu_fallback [c4CaseComp, c4PsuComp] c4CaseComp c4PsuComp rfl rfl
    (by intro a ha; simp [c4CaseComp] at ha)

/-! ### Claim C2 — rotation composition along the dependency chain -/

/-- A case whose `mobo_mount_area` anchor has zero rotation. -/
noncomputable def c2CaseComp : SelectedComponent :=
  ⟨"case", [⟨"mobo_mount_area", "Mount", ⟨0, 0, 0⟩, ⟨0, 0, 0⟩, "output", "Y_POS",
    []⟩], none⟩

/-- A motherboard whose `cpu_socket` anchor carries rotation `(0,0,1)`. -/
noncomputable def c2MoboComp : SelectedComponent :=
  ⟨"motherboard", [⟨"cpu_socket", "Socket", ⟨0, 0, 0⟩, ⟨0, 0, 1⟩, "output", "Y_NEG",
    []⟩], none⟩

/-- A CPU with no anchors. -/
noncomputable def c2CpuComp : SelectedComponent := ⟨"cpu", [], none⟩

/-- Claim C2 counterexample: on the cpu edge the composed CPU rotation is
the motherboard's world rotation `(π/2,0,0)` unchanged, although the parent
`cpu_socket` anchor carries rotation `(0,0,1)`; the claimed component-wise
sum `(π/2,0,0) ⊕ (0,0,1)` differs from it, so the claimed rotation rule
fails on the cpu edge. -/
theorem c2_counterexample :
    ((composeTransforms [c2CaseComp, c2MoboComp, c2CpuComp]).motherboard).map
      ComponentTransform.rotation = some ⟨Real.pi / 2, 0, 0⟩ ∧
    ((composeTransforms [c2CaseComp, c2MoboComp, c2CpuComp]).cpu).map
      ComponentTransform.rotation = some ⟨Real.pi / 2, 0, 0⟩ ∧
    (⟨Real.pi / 2, 0, 0⟩ : Vec3 ℝ) ≠ (⟨Real.pi / 2, 0, 0⟩ : Vec3 ℝ) + ⟨0, 0, 1⟩ := by
  have hm : (composeTransforms [c2CaseComp, c2MoboComp, c2CpuComp]).motherboard =
      some ⟨scaleVec ⟨0, 0, 0⟩, ⟨0 + Real.pi / 2, 0, 0⟩⟩ := rfl
  have hc : (composeTransforms [c2CaseComp, c2MoboComp, c2CpuComp]).cpu =
      some ⟨scaleVec ⟨0, 0, 0⟩ +
          (scaleVec ⟨0, 0, 0⟩).applyEuler ⟨0 + Real.pi / 2, 0, 0⟩,
        ⟨0 + Real.pi / 2, 0, 0⟩⟩ := rfl
  refine ⟨?_, ?_, ?_⟩
  · rw [hm]
    simp
  · rw [hc]
    simp
  · intro h
    have := congrArg Vec3.z h
    simp at this

/-- Claim C2 (amended): whenever both parts of an edge are present and the
parent anchor of the declared type is found, the composed child rotation is:
on the motherboard edge, the case's world rotation plus the mount anchor's
rotation plus the fixed `+π/2` X-axis correction (the single hard-coded
orientation correction); on the cooler, gpu and psu edges, the parent's
world rotation plus the parent anchor's rotation, component-wise; but on the
cpu and storage edges, the parent's world rotation unchanged — the parent
anchor's rotation is ignored there, contrary to the original claim. -/
theorem c2_rotation_composition :
    (∀ sel k mc ma, sel.find? (fun c => c.stepId == "case") = some k →
      sel.find? (fun c => c.stepId == "motherboard") = some mc →
      (convertApiAnchors k.anchor_points).find?
        (fun a => a.type == "mobo_mount_area") = some ma →
      ((composeTransforms sel).motherboard).map ComponentTransform.rotation =
        some ((composeTransforms sel).caseT.rotation + ma.rotation +
          ⟨Real.pi / 2, 0, 0⟩)) ∧
    (∀ sel mc cc sk, sel.find? (fun c => c.stepId == "motherboard") = some mc →
      sel.find? (fun c => c.stepId == "cpu") = some cc →
      (convertApiAnchors mc.anchor_points).find?
        (fun a => a.type == "cpu_socket") = some sk →
      ((composeTransforms sel).cpu).map ComponentTransform.rotation =
        some (((composeTransforms sel).motherboard).getD identityTransform).rotation) ∧
    (∀ sel cc kc cp, sel.find? (fun c => c.stepId == "cpu") = some cc →
      sel.find? (fun c => c.stepId == "cpu_cooler") = some kc →
      (convertApiAnchors cc.anchor_points).find?
        (fun a => a.type == "cooler_plate") = some cp →
      ((composeTransforms sel).cpu_cooler).map ComponentTransform.rotation =
        some ((((composeTransforms sel).cpu).getD identityTransform).rotation +
          cp.rotation)) ∧
    (∀ sel mc gc pc, sel.find? (fun c => c.stepId == "motherboard") = some mc →
      sel.find? (fun c => c.stepId == "gpu") = some gc →
      (convertApiAnchors mc.anchor_points).find?
        (fun a => a.type == "pcie_x16") = some pc →
      ((composeTransforms sel).gpu).map ComponentTransform.rotation =
        some ((((composeTransforms sel).motherboard).getD identityTransform).rotation +
          pc.rotation)) ∧
    (∀ sel k pu pb, sel.find? (fun c => c.stepId == "case") = some k →
      sel.find? (fun c => c.stepId == "psu") = some pu →
      (convertApiAnchors k.anchor_points).find?
        (fun a => a.type == "psu_bay") = some pb →
      ((composeTransforms sel).psu).map ComponentTransform.rotation =
        some ((composeTransforms sel).caseT.rotation + pb.rotation)) ∧
    (∀ sel mc sc ms, sel.find? (fun c => c.stepId == "motherboard") = some mc →
      sel.find? (fun c => c.stepId == "storage") = some sc →
      (convertApiAnchors mc.anchor_points).find?
        (fun a => a.type == "m2_slot") = some ms →
      ((composeTransforms sel).storage).map ComponentTransform.rotation =
        some (((composeTransforms sel).motherboard).getD identityTransform).rotation) := by
  refine ⟨?_, ?_, ?_, ?_, ?_, ?_⟩
  · intro sel k mc ma hk hmc hma
    have h : (composeTransforms sel).motherboard =
        composeMotherboard (sel.find? (fun c => c.stepId == "case"))
          (sel.find? (fun c => c.stepId == "motherboard")) := rfl
    rw [h, hk, hmc]
    simp only [composeMotherboard]
    rw [hma]
    have hct : (composeTransforms sel).caseT = identityTransform := rfl
    rw [hct]
    show some _ = some _
    refine congrArg some (Vec3.eq_of_components ?_ ?_ ?_) <;> simp [identityTransform]
  · intro sel mc cc sk hmc hcc hsk
    have h : (composeTransforms sel).cpu =
        composeCpu (sel.find? (fun c => c.stepId == "motherboard"))
          (sel.find? (fun c => c.stepId == "cpu"))
          ((composeTransforms sel).motherboard) := rfl
    rw [h, hmc, hcc]
    simp only [composeCpu]
    rw [hsk]
    rfl
  · intro sel cc kc cp hcc hkc hcp
    have h : (composeTransforms sel).cpu_cooler =
        composeCooler (sel.find? (fun c => c.stepId == "cpu"))
          (sel.find? (fun c => c.stepId == "cpu_cooler"))
          ((composeTransforms sel).cpu) := rfl
    rw [h, hcc, hkc]
    simp only [composeCooler]
    rw [hcp]
    rfl
  · intro sel mc gc pc hmc hgc hpc
    have h : (composeTransforms sel).gpu =
        composeGpu (sel.find? (fun c => c.stepId == "motherboard"))
          (sel.find? (fun c => c.stepId == "gpu"))
          ((composeTransforms sel).motherboard) := rfl
    rw [h, hmc, hgc]
    simp only [composeGpu]
    rw [hpc]
    rfl
  · intro sel k pu pb hk hpu hpb
    have h : (composeTransforms sel).psu =
        composePsu (sel.find? (fun c => c.stepId == "case"))
          (sel.find? (fun c => c.stepId == "psu")) := rfl
    rw [h, hk, hpu]
    simp only [composePsu]
    rw [hpb]
    have hct : (composeTransforms sel).caseT = identityTransform := rfl
    rw [hct]
    show some _ = some _
    refine congrArg some (Vec3.eq_of_components ?_ ?_ ?_) <;> simp [identityTransform]
  · intro sel mc sc ms hmc hsc hms
    have h : (composeTransforms sel).storage =
        composeStorage (sel.find? (fun c => c.stepId == "case"))
          (sel.find? (fun c => c.stepId == "motherboard"))
          (sel.find? (fun c => c.stepId == "storage"))
          ((composeTransforms sel).motherboard) := rfl
    rw [h, hmc, hsc]
    simp only [composeStorage]
    rw [hms]
    rfl

/-- Witness fixture anchors for C2 (nonzero anchor rotations). -/
noncomputable def c2wMount : ApiAnchor :=
  ⟨"mobo_mount_area", "M1", ⟨0, 0, 0⟩, ⟨1, 2, 3⟩, "output", "Y_POS", []⟩

noncomputable def c2wBay : ApiAnchor :=
  ⟨"psu_bay", "B1", ⟨0, 0, 0⟩, ⟨4, 5, 6⟩, "output", "Z_NEG", []⟩

noncomputable def c2wSocket : ApiAnchor :=
  ⟨"cpu_socket", "S1", ⟨0, 0, 0⟩, ⟨7, 8, 9⟩, "output", "Y_NEG", []⟩

noncomputable def c2wPcie : ApiAnchor :=
  ⟨"pcie_x16", "X1", ⟨0, 0, 0⟩, ⟨1, 1, 1⟩, "output", "Z_NEG", []⟩

noncomputable def c2wM2 : ApiAnchor :=
  ⟨"m2_slot", "M2", ⟨0, 0, 0⟩, ⟨2, 2, 2⟩, "output", "Z_NEG", []⟩

noncomputable def c2wPlate : ApiAnchor :=
  ⟨"cooler_plate", "CP", ⟨0, 0, 0⟩, ⟨3, 3, 3⟩, "output", "Y_POS", []⟩

/-- Witness fixture selection for C2: all build steps present, every parent
anchor found. -/
noncomputable def c2wSel : List SelectedComponent :=
  [⟨"case", [c2wMount, c2wBay], none⟩,
   ⟨"motherboard", [c2wSocket, c2wPcie, c2wM2], none⟩,
   ⟨"cpu", [c2wPlate], none⟩,
   ⟨"cpu_cooler", [], none⟩,
   ⟨"gpu", [], none⟩,
   ⟨"psu", [], none⟩,
   ⟨"storage", [], none⟩]

/-- Witness for C2 (amended) on the full-build fixture. -/
theorem c2_rotation_composition_witness :
    ((composeTransforms c2wSel).motherboard).map ComponentTransform.rotation =
      some ((composeTransforms c2wSel).caseT.rotation +
        (convertApiAnchor c2wMount).rotation + ⟨Real.pi / 2, 0, 0⟩) ∧
    ((composeTransforms c2wSel).cpu).map ComponentTransform.rotation =
      some (((composeTransforms c2wSel).motherboard).getD identityTransform).rotation ∧
    ((composeTransforms c2wSel).cpu_cooler).map ComponentTransform.rotation =
      some ((((composeTransforms c2wSel).cpu).getD identityTransform).rotation +
        (convertApiAnchor c2wPlate).rotation) ∧
    ((composeTransforms c2wSel).gpu).map ComponentTransform.rotation =
      some ((((composeTransforms c2wSel).motherboard).getD identityTransform).rotation +
        (convertApiAnchor c2wPcie).rotation) ∧
    ((composeTransforms c2wSel).psu).map ComponentTransform.rotation =
      some ((composeTransforms c2wSel).caseT.rotation +
        (convertApiAnchor c2wBay).rotation) ∧
    ((composeTransforms c2wSel).storage).map ComponentTransform.rotation =
      some (((composeTransforms c2wSel).motherboard).getD identityTransform).rotation :=
  ⟨c2_rotation_composition.1 c2wSel _ _ (convertApiAnchor c2wMount) rfl rfl rfl,
   c2_rotation_composition.2.1 c2wSel _ _ (convertApiAnchor c2wSocket) rfl rfl rfl,
   c2_rotation_composition.2.2.1 c2wSel _ _ (convertApiAnchor c2wPlate) rfl rfl rfl,
   c2_rotation_composition.2.2.2.1 c2wSel _ _ (convertApiAnchor c2wPcie) rfl rfl rfl,
   c2_rotation_composition.2.2.2.2.1 c2wSel _ _ (convertApiAnchor c2wBay) rfl rfl rfl,
   c2_rotation_composition.2.2.2.2.2 c2wSel _ _ (convertApiAnchor c2wM2) rfl rfl rfl⟩

/-! ### Claim C3 — RAM replication -/

/-- A `ram_slot` anchor with zero rotation at position `p`. -/
noncomputable def ramSlotAnchor (lbl : String) (p : Vec3 ℝ) : ApiAnchor :=
  ⟨"ram_slot", lbl, p, ⟨0, 0, 0⟩, "output", "Y_NEG", ["ram_edge"]⟩

/-- A motherboard with exactly four `ram_slot` anchors labeled
"RAM Slot 1".."RAM Slot 4". -/
noncomputable def ramMobo (p1 p2 p3 p4 : Vec3 ℝ) : SelectedComponent :=
  ⟨"motherboard",
    [ramSlotAnchor "RAM Slot 1" p1, ramSlotAnchor "RAM Slot 2" p2,
     ramSlotAnchor "RAM Slot 3" p3, ramSlotAnchor "RAM Slot 4" p4], none⟩

theorem scaleVec_inj {a b : Vec3 ℝ} (h : scaleVec a = scaleVec b) : a = b := by
  have h01 : (SCALE_FACTOR : ℝ) ≠ 0 := by norm_num [SCALE_FACTOR]
  cases a
  cases b
  simp only [scaleVec, Vec3.mk.injEq] at h
  exact Vec3.eq_of_components (mul_right_cancel₀ h01 h.1)
    (mul_right_cancel₀ h01 h.2.1) (mul_right_cancel₀ h01 h.2.2)

/-- Evaluation of `getRamTransforms` on the four-slot fixture (no case
selected, so the motherboard transform defaults to the identity): quantity 3
takes slots 1–3 in label order; quantity 6 takes all four slots and
synthesizes two fallback placements at `(2.7, 0.1, 0)` and `(3, 0.1, 0)`. -/
theorem getRam_fixture_eval (p1 p2 p3 p4 : Vec3 ℝ) :
    getRamTransforms (composeTransforms [ramMobo p1 p2 p3 p4])
      ([ramMobo p1 p2 p3 p4].find? (fun c => c.stepId == "motherboard")) 3 =
      [⟨scaleVec p1, ⟨0, 0, 0⟩⟩, ⟨scaleVec p2, ⟨0, 0, 0⟩⟩, ⟨scaleVec p3, ⟨0, 0, 0⟩⟩] ∧
    getRamTransforms (composeTransforms [ramMobo p1 p2 p3 p4])
      ([ramMobo p1 p2 p3 p4].find? (fun c => c.stepId == "motherboard")) 6 =
      [⟨scaleVec p1, ⟨0, 0, 0⟩⟩, ⟨scaleVec p2, ⟨0, 0, 0⟩⟩, ⟨scaleVec p3, ⟨0, 0, 0⟩⟩,
       ⟨scaleVec p4, ⟨0, 0, 0⟩⟩, ⟨⟨2.7, 0.1, 0⟩, ⟨0, 0, 0⟩⟩, ⟨⟨3, 0.1, 0⟩, ⟨0, 0, 0⟩⟩] := by
  have hmobo : (composeTransforms [ramMobo p1 p2 p3 p4]).motherboard = none := rfl
  have hfind : [ramMobo p1 p2 p3 p4].find? (fun c => c.stepId == "motherboard") =
      some (ramMobo p1 p2 p3 p4) := rfl
  have hfilter : ((convertApiAnchors (ramMobo p1 p2 p3 p4).anchor_points).filter
      (fun a => a.type == "ram_slot")) =
      [convertApiAnchor (ramSlotAnchor "RAM Slot 1" p1),
       convertApiAnchor (ramSlotAnchor "RAM Slot 2" p2),
       convertApiAnchor (ramSlotAnchor "RAM Slot 3" p3),
       convertApiAnchor (ramSlotAnchor "RAM Slot 4" p4)] := rfl
  have hsort : ([convertApiAnchor (ramSlotAnchor "RAM Slot 1" p1),
       convertApiAnchor (ramSlotAnchor "RAM Slot 2" p2),
       convertApiAnchor (ramSlotAnchor "RAM Slot 3" p3),
       convertApiAnchor (ramSlotAnchor "RAM Slot 4" p4)]).mergeSort
        (fun a b => a.label ≤ b.label) =
      [convertApiAnchor (ramSlotAnchor "RAM Slot 1" p1),
       convertApiAnchor (ramSlotAnchor "RAM Slot 2" p2),
       convertApiAnchor (ramSlotAnchor "RAM Slot 3" p3),
       convertApiAnchor (ramSlotAnchor "RAM Slot 4" p4)] := by
    apply List.mergeSort_of_sorted
    refine List.Pairwise.cons ?_ (List.Pairwise.cons ?_ (List.Pairwise.cons ?_
      (List.pairwise_singleton _ _)))
    · intro a' ha'
      simp only [List.mem_cons, List.not_mem_nil, or_false] at ha'
      rcases ha' with rfl | rfl | rfl <;>
        · simp only [convertApiAnchor, ramSlotAnchor, decide_eq_true_eq]
          rw [String.le_iff_toList_le]
          decide
    · intro a' ha'
      simp only [List.mem_cons, List.not_mem_nil, or_false] at ha'
      rcases ha' with rfl | rfl <;>
        · simp only [convertApiAnchor, ramSlotAnchor, decide_eq_true_eq]
          rw [String.le_iff_toList_le]
          decide
    · intro a' ha'
      simp only [List.mem_cons, List.not_mem_nil, or_false] at ha'
      subst ha'
      simp only [convertApiAnchor, ramSlotAnchor, decide_eq_true_eq]
      rw [String.le_iff_toList_le]
      decide
  constructor
  · simp only [getRamTransforms, hmobo, hfind, hfilter, hsort, Option.getD_none,
      identityTransform]
    simp only [List.take, List.map_cons, List.map_nil, List.length_cons,
      List.length_nil, convertApiAnchor, ramSlotAnchor]
    norm_num [Vec3.applyEuler_zero_rot, Vec3.zero_add_vec]
  · simp only [getRamTransforms, hmobo, hfind, hfilter, hsort, Option.getD_none,
      identityTransform]
    simp only [List.take, List.map_cons, List.map_nil, List.length_cons,
      List.length_nil, convertApiAnchor, ramSlotAnchor, List.range_succ,
      List.map_append, List.append_assoc]
    norm_num [Vec3.applyEuler_zero_rot, Vec3.zero_add_vec]

/-- Claim C3 counterexample: the four slots at `(0,0,0)`, `(1,0,0)`,
`(2,0,0)`, `(27,1,0)` are mutually distinct, yet requesting quantity 6
produces a duplicate position — slot 4 scales to `(2.7, 0.1, 0)`, exactly
the first synthesized fallback position — so "all 6 positions mutually
distinct" fails as stated. -/
theorem c3_counterexample :
    List.Pairwise (· ≠ ·)
      ([⟨0, 0, 0⟩, ⟨1, 0, 0⟩, ⟨2, 0, 0⟩, ⟨27, 1, 0⟩] : List (Vec3 ℝ)) ∧
    ¬ List.Pairwise (· ≠ ·)
      ((getRamTransforms
          (composeTransforms [ramMobo ⟨0, 0, 0⟩ ⟨1, 0, 0⟩ ⟨2, 0, 0⟩ ⟨27, 1, 0⟩])
          ([ramMobo ⟨0, 0, 0⟩ ⟨1, 0, 0⟩ ⟨2, 0, 0⟩ ⟨27, 1, 0⟩].find?
            (fun c => c.stepId == "motherboard")) 6).map
        ComponentTransform.position) := by
  constructor
  · apply List.pairwise_iff_get.mpr
    intro i j hij
    fin_cases i <;> fin_cases j <;>
      first
        | exact absurd hij (by decide)
        | (intro h; rw [Vec3.mk.injEq] at h; norm_num at h)
  · intro hpair
    have h6 := (getRam_fixture_eval ⟨0, 0, 0⟩ ⟨1, 0, 0⟩ ⟨2, 0, 0⟩ ⟨27, 1, 0⟩).2
    rw [h6] at hpair
    have hcollide : scaleVec (⟨27, 1, 0⟩ : Vec3 ℝ) = ⟨2.7, 0.1, 0⟩ := by
      simp only [scaleVec, SCALE_FACTOR]
      exact Vec3.eq_of_components (by norm_num) (by norm_num) (by norm_num)
    have hget := List.pairwise_iff_get.mp hpair ⟨3, by decide⟩ ⟨4, by decide⟩ (by decide)
    exact hget hcollide

/-- Claim C3 (amended): for the four-slot fixture with mutually distinct
slot positions, quantity 3 yields exactly the three transforms of slots 1–3
in lexicographic label order, and quantity 6 yields four slot-derived
transforms plus two synthesized along the x axis relative to the motherboard
transform; the six positions are mutually distinct provided additionally
that no scaled slot position coincides with either synthesized fallback
position `(2.7, 0.1, 0)` or `(3, 0.1, 0)` (the original claim omits this
proviso, and the counterexample shows it is needed). -/
theorem c3_ram_replication (p1 p2 p3 p4 : Vec3 ℝ)
    (hdist : List.Pairwise (· ≠ ·) [p1, p2, p3, p4])
    (hfb : ∀ p ∈ [p1, p2, p3, p4],
      scaleVec p ≠ ⟨2.7, 0.1, 0⟩ ∧ scaleVec p ≠ ⟨3, 0.1, 0⟩) :
    getRamTransforms (composeTransforms [ramMobo p1 p2 p3 p4])
      ([ramMobo p1 p2 p3 p4].find? (fun c => c.stepId == "motherboard")) 3 =
      [⟨scaleVec p1, ⟨0, 0, 0⟩⟩, ⟨scaleVec p2, ⟨0, 0, 0⟩⟩, ⟨scaleVec p3, ⟨0, 0, 0⟩⟩] ∧
    getRamTransforms (composeTransforms [ramMobo p1 p2 p3 p4])
      ([ramMobo p1 p2 p3 p4].find? (fun c => c.stepId == "motherboard")) 6 =
      [⟨scaleVec p1, ⟨0, 0, 0⟩⟩, ⟨scaleVec p2, ⟨0, 0, 0⟩⟩, ⟨scaleVec p3, ⟨0, 0, 0⟩⟩,
       ⟨scaleVec p4, ⟨0, 0, 0⟩⟩, ⟨⟨2.7, 0.1, 0⟩, ⟨0, 0, 0⟩⟩, ⟨⟨3, 0.1, 0⟩, ⟨0, 0, 0⟩⟩] ∧
    List.Pairwise (· ≠ ·)
      ((getRamTransforms (composeTransforms [ramMobo p1 p2 p3 p4])
        ([ramMobo p1 p2 p3 p4].find? (fun c => c.stepId == "motherboard")) 6).map
        ComponentTransform.position) := by
  obtain ⟨h3, h6⟩ := getRam_fixture_eval p1 p2 p3 p4
  have hp := List.pairwise_iff_get.mp hdist
  have hs12 : scaleVec p1 ≠ scaleVec p2 :=
    fun h => hp ⟨0, by simp⟩ ⟨1, by simp⟩ (by simp [Fin.mk_lt_mk]) (scaleVec_inj h)
  have hs13 : scaleVec p1 ≠ scaleVec p3 :=
    fun h => hp ⟨0, by simp⟩ ⟨2, by simp⟩ (by simp [Fin.mk_lt_mk]) (scaleVec_inj h)
  have hs14 : scaleVec p1 ≠ scaleVec p4 :=
    fun h => hp ⟨0, by simp⟩ ⟨3, by simp⟩ (by simp [Fin.mk_lt_mk]) (scaleVec_inj h)
  have hs23 : scaleVec p2 ≠ scaleVec p3 :=
    fun h => hp ⟨1, by simp⟩ ⟨2, by simp⟩ (by simp [Fin.mk_lt_mk]) (scaleVec_inj h)
  have hs24 : scaleVec p2 ≠ scaleVec p4 :=
    fun h => hp ⟨1, by simp⟩ ⟨3, by simp⟩ (by simp [Fin.mk_lt_mk]) (scaleVec_inj h)
  have hs34 : scaleVec p3 ≠ scaleVec p4 :=
    fun h => hp ⟨2, by simp⟩ ⟨3, by simp⟩ (by simp [Fin.mk_lt_mk]) (scaleVec_inj h)
  have hf1 := hfb p1 (by simp)
  have hf2 := hfb p2 (by simp)
  have hf3 := hfb p3 (by simp)
  have hf4 := hfb p4 (by simp)
  have hfbne : (⟨2.7, 0.1, 0⟩ : Vec3 ℝ) ≠ ⟨3, 0.1, 0⟩ := by
    intro h
    rw [Vec3.mk.injEq] at h
    norm_num at h
  refine ⟨h3, h6, ?_⟩
  rw [h6]
  apply List.pairwise_iff_get.mpr
  intro i j hij
  fin_cases i <;> fin_cases j <;>
    first
      | exact hs12
      | exact hs13
      | exact hs14
      | exact hs23
      | exact hs24
      | exact hs34
      | exact hf1.1
      | exact hf1.2
      | exact hf2.1
      | exact hf2.2
      | exact hf3.1
      | exact hf3.2
      | exact hf4.1
      | exact hf4.2
      | exact hfbne
      | simp at hij

/-- Witness for C3 (amended) at slot positions `(0,0,1)`, `(0,0,2)`,
`(0,0,3)`, `(0,0,4)`. -/
theorem c3_ram_replication_witness :
    getRamTransforms (composeTransforms [ramMobo ⟨0,0,1⟩ ⟨0,0,2⟩ ⟨0,0,3⟩ ⟨0,0,4⟩])
      ([ramMobo ⟨0,0,1⟩ ⟨0,0,2⟩ ⟨0,0,3⟩ ⟨0,0,4⟩].find?
        (fun c => c.stepId == "motherboard")) 3 =
      [⟨scaleVec ⟨0,0,1⟩, ⟨0, 0, 0⟩⟩, ⟨scaleVec ⟨0,0,2⟩, ⟨0, 0, 0⟩⟩,
       ⟨scaleVec ⟨0,0,3⟩, ⟨0, 0, 0⟩⟩] ∧
    getRamTransforms (composeTransforms [ramMobo ⟨0,0,1⟩ ⟨0,0,2⟩ ⟨0,0,3⟩ ⟨0,0,4⟩])
      ([ramMobo ⟨0,0,1⟩ ⟨0,0,2⟩ ⟨0,0,3⟩ ⟨0,0,4⟩].find?
        (fun c => c.stepId == "motherboard")) 6 =
      [⟨scaleVec ⟨0,0,1⟩, ⟨0, 0, 0⟩⟩, ⟨scaleVec ⟨0,0,2⟩, ⟨0, 0, 0⟩⟩,
       ⟨scaleVec ⟨0,0,3⟩, ⟨0, 0, 0⟩⟩, ⟨scaleVec ⟨0,0,4⟩, ⟨0, 0, 0⟩⟩,
       ⟨⟨2.7, 0.1, 0⟩, ⟨0, 0, 0⟩⟩, ⟨⟨3, 0.1, 0⟩, ⟨0, 0, 0⟩⟩] ∧
    List.Pairwise (· ≠ ·)
      ((getRamTransforms (composeTransforms [ramMobo ⟨0,0,1⟩ ⟨0,0,2⟩ ⟨0,0,3⟩ ⟨0,0,4⟩])
        ([ramMobo ⟨0,0,1⟩ ⟨0,0,2⟩ ⟨0,0,3⟩ ⟨0,0,4⟩].find?
          (fun c => c.stepId == "motherboard")) 6).map
        ComponentTransform.position) := by
  apply c3_ram_replication
  · apply List.pairwise_iff_get.mpr
    intro i j hij
    fin_cases i <;> fin_cases j <;>
      first
        | exact absurd hij (by decide)
        | (intro h; rw [Vec3.mk.injEq] at h; norm_num at h)
  · intro p hp
    simp only [List.mem_cons, List.not_mem_nil, or_false] at hp
    rcases hp with rfl | rfl | rfl | rfl <;>
      constructor <;>
      (intro h; simp only [scaleVec, SCALE_FACTOR, Vec3.mk.injEq] at h; norm_num at h)

end FitPC
